import Mathlib

/-
Verification of the `forest` repository's CID-compaction and db-gc code.

Shallow embedding of:
  * `src/utils/cid/mod.rs` — `CidCborExt::from_cbor_blake2b256`, `SmallCid`,
    `SmallCidInner::canonical`, `SmallCid::cid`, the `Serialize`/`Deserialize`
    and `From` impls;
  * `src/rpc/db_api.rs` — `db_gc`.

Machine integers are modelled as `Nat` (no arithmetic overflow is reachable in
the embedded code: values are multicodec tags and byte-vector lengths).
Byte strings are `List Nat`. Fallible operations return `Option`/`Except`;
a Rust `expect` (panic) is the `none` case of an `Option`.
-/

namespace Forest

/-- CID version tag (the `cid` crate's `Version`: `V0` or `V1`). -/
inductive Version where
  | v0
  | v1
deriving DecidableEq

/-- A multihash as the `multihash` crate stores it inside `Multihash<64>`:
a code (`u64`) and the meaningful digest bytes (the crate keeps a 64-byte
buffer plus a length; equality compares code and the meaningful bytes, which
is what the digest list captures). -/
structure Multihash where
  code : Nat
  digest : List Nat
deriving DecidableEq

/-- A CID: `(version, codec, multihash)`, as in the `cid` crate. -/
structure Cid where
  version : Version
  codec : Nat
  hash : Multihash
deriving DecidableEq

/-- `Cid::new_v1(codec, hash)`. -/
def Cid.newV1 (codec : Nat) (hash : Multihash) : Cid :=
  ⟨Version.v1, codec, hash⟩

/-- `fvm_ipld_encoding::DAG_CBOR` multicodec tag. -/
def DAG_CBOR : Nat := 0x71

/-- The multicodec code of `Code::Blake2b256` (`u64::from(Code::Blake2b256)`). -/
def blake2b256Code : Nat := 0xb220

/-- `BLAKE2B256_SIZE` from `src/utils/cid/mod.rs`. -/
def BLAKE2B256_SIZE : Nat := 32

/-- `Multihash::<64>::resize::<32>()` followed by `into_inner()`: succeeds iff
the meaningful digest fits in 32 bytes, returning the code, the 32-byte buffer
(digest copied into a zeroed array) and the stored size. -/
def Multihash.resize32 (h : Multihash) : Option (Nat × List Nat × Nat) :=
  if h.digest.length ≤ 32 then
    some (h.code, h.digest ++ List.replicate (32 - h.digest.length) 0, h.digest.length)
  else
    none

/-- `Multihash::<64>::wrap(code, digest)`: fails iff the digest exceeds the
64-byte buffer. -/
def Multihash.wrap (code : Nat) (digest : List Nat) : Option Multihash :=
  if digest.length ≤ 64 then some ⟨code, digest⟩ else none

/-- `SmallCidInner` from `src/utils/cid/mod.rs` (the `Box` around the `Other`
payload is a heap-allocation detail with no semantic content). -/
inductive SmallCidInner where
  | other (cid : Cid)
  | v1DagCborBlake2b (digest : List Nat)
deriving DecidableEq

/-- `SmallCid`, a newtype over a (canonical) `SmallCidInner`. -/
structure SmallCid where
  inner : SmallCidInner
deriving DecidableEq

/-- `SmallCidInner::canonical`: compact a CID into the specialized variant when
it is V1 / DAG-CBOR / Blake2b-256 with a 32-byte digest, else box it. -/
def SmallCidInner.canonical (cid : Cid) : SmallCidInner :=
  if cid.version = Version.v1 ∧ cid.codec = DAG_CBOR then
    match cid.hash.resize32 with
    | some (code, bytes, size) =>
      if code = blake2b256Code ∧ size = BLAKE2B256_SIZE then
        SmallCidInner.v1DagCborBlake2b bytes
      else
        SmallCidInner.other cid
    | none => SmallCidInner.other cid
  else
    SmallCidInner.other cid

/-- `impl From<Cid> for SmallCid`. -/
def SmallCid.fromCid (cid : Cid) : SmallCid :=
  ⟨SmallCidInner.canonical cid⟩

/-- `SmallCid::cid`. The `expect` on `Multihash::wrap` is modelled as the
`none` outcome: `none` is the panic the source claims unreachable. -/
def SmallCid.cid (s : SmallCid) : Option Cid :=
  match s.inner with
  | SmallCidInner.other c => some c
  | SmallCidInner.v1DagCborBlake2b digest =>
    (Multihash.wrap blake2b256Code digest).map fun h => Cid.newV1 DAG_CBOR h

/-- `impl Serialize for SmallCid`: `self.cid().serialize(serializer)`.
Quantifying over the serializer function makes the statement hold for every
serde backend; the `Option` is the potential panic inside `cid()`. -/
def smallCidSerialize {ρ : Type} (serializer : Cid → ρ) (s : SmallCid) : Option ρ :=
  (SmallCid.cid s).map serializer

/-- `impl Deserialize for SmallCid`: deserialize a full `Cid`, then
`Self::from`. The argument is the outcome of `Cid::deserialize`. -/
def smallCidDeserialize {ε : Type} (de : Except ε Cid) : Except ε SmallCid :=
  de.map SmallCid.fromCid

/-- `Code::Blake2b256.digest(bytes)`: a multihash tagged with the Blake2b-256
code over the digest produced by the (external) blake2b implementation,
passed in as a function. -/
def digestBlake2b256 (blake2b : List Nat → List Nat) (bytes : List Nat) : Multihash :=
  ⟨blake2b256Code, blake2b bytes⟩

/-- `CidCborExt::from_cbor_blake2b256`: serialize with the (external)
deterministic CBOR codec `toVec`, then build a V1 DAG-CBOR CID over the
Blake2b-256 digest. -/
def fromCborBlake2b256 {α ε : Type} (toVec : α → Except ε (List Nat))
    (blake2b : List Nat → List Nat) (obj : α) : Except ε Cid :=
  (toVec obj).map fun bytes => Cid.newV1 DAG_CBOR (digestBlake2b256 blake2b bytes)

/-- The error a failed `flume` `send_async` reports (channel disconnected). -/
inductive SendErr where
  | disconnected
deriving DecidableEq

/-- The error a failed `flume` `recv_async` reports (sender dropped). -/
inductive RecvErr where
  | disconnected
deriving DecidableEq

/-- `jsonrpc_v2::Error` as produced by the three `?` conversions in `db_gc`:
from a send failure, from a receive failure, or from the GC worker's error. -/
inductive JsonRpcErr (γ : Type) where
  | sendFailed (e : SendErr)
  | recvFailed (e : RecvErr)
  | gcFailed (e : γ)
deriving DecidableEq

/-- `db_gc` from `src/rpc/db_api.rs`. The two awaited channel interactions are
passed in as their outcomes: `send` is the result of
`gc_event_tx.send_async(tx)`, `recv` the result of `rx.recv_async()` (which,
on success, carries the GC worker's own `Result`). The body is the literal
`?`/`??` control flow. -/
def db_gc {γ : Type} (send : Except SendErr Unit)
    (recv : Except RecvErr (Except γ Unit)) : Except (JsonRpcErr γ) Unit := do
  match send with
  | Except.error e => throw (JsonRpcErr.sendFailed e)
  | Except.ok () =>
    match recv with
    | Except.error e => throw (JsonRpcErr.recvFailed e)
    | Except.ok (Except.error e) => throw (JsonRpcErr.gcFailed e)
    | Except.ok (Except.ok ()) => pure ()

/-- Characterization of `SmallCidInner::canonical`: the compact variant is
produced exactly on the canonical predicate, and then it stores the digest
unchanged. -/
theorem canonical_eq (c : Cid) :
    SmallCidInner.canonical c =
      if c.version = Version.v1 ∧ c.codec = DAG_CBOR ∧ c.hash.code = blake2b256Code ∧
          c.hash.digest.length = BLAKE2B256_SIZE
      then SmallCidInner.v1DagCborBlake2b c.hash.digest
      else SmallCidInner.other c := by
  unfold SmallCidInner.canonical Multihash.resize32
  by_cases hv : c.version = Version.v1
  · by_cases hc : c.codec = DAG_CBOR
    · by_cases hle : c.hash.digest.length ≤ 32
      · by_cases hh : c.hash.code = blake2b256Code
        · by_cases hl : c.hash.digest.length = BLAKE2B256_SIZE
          · have hz : 32 - c.hash.digest.length = 0 := by
              rw [hl]
              decide
            simp [hv, hc, hle, hh, hl, hz, BLAKE2B256_SIZE]
          · simp [hv, hc, hle, hh, hl]
        · simp [hv, hc, hle, hh]
      · have hl : ¬ c.hash.digest.length = BLAKE2B256_SIZE := by
          intro h
          exact hle (le_of_eq h)
        simp [hv, hc, hle, hl]
    · simp [hv, hc]
  · simp [hv]

/-- Round trip helper: `cid` of `fromCid` recovers the original CID (and in
particular the `expect` branch is unreachable). -/
theorem fromCid_cid (c : Cid) : (SmallCid.fromCid c).cid = some c := by
  show SmallCid.cid ⟨SmallCidInner.canonical c⟩ = some c
  rw [canonical_eq]
  split_ifs with h
  · obtain ⟨hv, hc, hh, hl⟩ := h
    simp only [SmallCid.cid, Multihash.wrap, hl]
    norm_num [BLAKE2B256_SIZE, Option.map, Cid.newV1]
    cases c with
    | mk v co ha =>
      cases ha with
      | mk hco hd => simp_all
  · simp [SmallCid.cid]

/-- Claim C1: for every `Cid` c, converting to the compact form and back is
the identity: `Cid::from(SmallCid::from(c)) == c` (and the conversion back
succeeds). -/
theorem smallCid_roundtrip_id (c : Cid) : (SmallCid.fromCid c).cid = some c :=
  fromCid_cid c

/-- Claim C2: every `SmallCid` produced by `From<Cid>` (and hence by
`Deserialize`, which factors through it) is canonical: a source `Cid` with
version V1, codec DAG-CBOR, hash code Blake2b-256 and a 32-byte digest yields
the `V1DagCborBlake2b` variant, never `Other`. -/
theorem smallCid_constructors_canonical (ε : Type) (c : Cid)
    (hv : c.version = Version.v1) (hc : c.codec = DAG_CBOR)
    (hh : c.hash.code = blake2b256Code)
    (hl : c.hash.digest.length = BLAKE2B256_SIZE) :
    (SmallCid.fromCid c).inner = SmallCidInner.v1DagCborBlake2b c.hash.digest ∧
      smallCidDeserialize (Except.ok c : Except ε Cid) =
        Except.ok (SmallCid.fromCid c) := by
  refine ⟨?_, rfl⟩
  show SmallCidInner.canonical c = SmallCidInner.v1DagCborBlake2b c.hash.digest
  rw [canonical_eq]
  simp [hv, hc, hh, hl]

/-- Witness for C2 at the concrete canonical CID with the all-zero digest. -/
theorem smallCid_constructors_canonical_witness :
    (SmallCid.fromCid ⟨Version.v1, DAG_CBOR, ⟨blake2b256Code, List.replicate 32 0⟩⟩).inner =
        SmallCidInner.v1DagCborBlake2b (List.replicate 32 0) ∧
      smallCidDeserialize
          (Except.ok ⟨Version.v1, DAG_CBOR, ⟨blake2b256Code, List.replicate 32 0⟩⟩ :
            Except Unit Cid) =
        Except.ok (SmallCid.fromCid ⟨Version.v1, DAG_CBOR, ⟨blake2b256Code, List.replicate 32 0⟩⟩) :=
  smallCid_constructors_canonical Unit
    ⟨Version.v1, DAG_CBOR, ⟨blake2b256Code, List.replicate 32 0⟩⟩
    rfl rfl rfl (by simp [BLAKE2B256_SIZE])

/-- Claim C3: the `Cid → SmallCid` conversion is equality-preserving:
`SmallCid::from(c1) == SmallCid::from(c2)` iff `c1 == c2`. -/
theorem smallCid_from_injective (c1 c2 : Cid) :
    SmallCid.fromCid c1 = SmallCid.fromCid c2 ↔ c1 = c2 := by
  constructor
  · intro h
    have h1 := fromCid_cid c1
    rw [h, fromCid_cid c2] at h1
    exact (Option.some.inj h1).symm
  · intro h
    rw [h]

/-- Claim C4: the constructor is total (`fromCid` is a total function) and
`SmallCid::cid` never panics on a constructed value: the `expect` branch
(`none` in the embedding) is unreachable. -/
theorem smallCid_cid_no_panic (c : Cid) :
    ∃ c', (SmallCid.fromCid c).cid = some c' :=
  ⟨c, fromCid_cid c⟩

/-- Claim C5: serialization of a `SmallCid` always goes through the full
`Cid` form: for every serializer, serializing `SmallCid::from(c)` produces
exactly the serializer's output on `c` itself. -/
theorem smallCid_serialize_via_full_form (ρ : Type) (serializer : Cid → ρ)
    (c : Cid) :
    smallCidSerialize serializer (SmallCid.fromCid c) = some (serializer c) := by
  unfold smallCidSerialize
  rw [fromCid_cid c]
  rfl

/-- Claim C6: the conversion is idempotent through the round trip:
if `to_cid(from(c)) = c'` then `from(c') = from(c)`. -/
theorem smallCid_from_idempotent (c c' : Cid)
    (h : (SmallCid.fromCid c).cid = some c') :
    SmallCid.fromCid c' = SmallCid.fromCid c := by
  have h1 := fromCid_cid c
  rw [h] at h1
  rw [Option.some.inj h1]

/-- Witness for C6 at a concrete non-canonical CID. -/
theorem smallCid_from_idempotent_witness :
    ((SmallCid.fromCid ⟨Version.v0, 0x70, ⟨0x12, [1, 2, 3]⟩⟩).cid =
        some ⟨Version.v0, 0x70, ⟨0x12, [1, 2, 3]⟩⟩) ∧
      SmallCid.fromCid ⟨Version.v0, 0x70, ⟨0x12, [1, 2, 3]⟩⟩ =
        SmallCid.fromCid ⟨Version.v0, 0x70, ⟨0x12, [1, 2, 3]⟩⟩ :=
  ⟨by decide, smallCid_from_idempotent ⟨Version.v0, 0x70, ⟨0x12, [1, 2, 3]⟩⟩
    ⟨Version.v0, 0x70, ⟨0x12, [1, 2, 3]⟩⟩ (by decide)⟩

/-- Claim C7: `from_cbor_blake2b256(obj)`, when the CBOR serialization
succeeds, returns a CID with version 1, codec DAG-CBOR, and multihash the
Blake2b-256 digest of the serialized bytes. -/
theorem fromCborBlake2b256_spec (α ε : Type) (toVec : α → Except ε (List Nat))
    (blake2b : List Nat → List Nat) (obj : α) (bytes : List Nat)
    (h : toVec obj = Except.ok bytes) :
    fromCborBlake2b256 toVec blake2b obj =
      Except.ok ⟨Version.v1, DAG_CBOR, ⟨blake2b256Code, blake2b bytes⟩⟩ := by
  unfold fromCborBlake2b256 digestBlake2b256 Cid.newV1
  rw [h]
  rfl

/-- Witness for C7 with a concrete serializer and digest function. -/
theorem fromCborBlake2b256_spec_witness :
    ((fun _ : Unit => (Except.ok [1, 2] : Except Unit (List Nat))) () =
        Except.ok [1, 2]) ∧
      fromCborBlake2b256 (fun _ : Unit => (Except.ok [1, 2] : Except Unit (List Nat)))
          (fun l => 0 :: l) () =
        Except.ok ⟨Version.v1, DAG_CBOR, ⟨blake2b256Code, 0 :: [1, 2]⟩⟩ :=
  ⟨rfl, fromCborBlake2b256_spec Unit Unit
    (fun _ => Except.ok [1, 2]) (fun l => 0 :: l) () [1, 2] rfl⟩

/-- Claim C8: `db_gc` returns `Ok(())` iff the send onto the GC rendezvous
succeeded and the worker sent a success result on the reply channel; when the
worker reports a GC failure, `db_gc` returns an error carrying it. -/
theorem db_gc_ok_iff (γ : Type) (send : Except SendErr Unit)
    (recv : Except RecvErr (Except γ Unit)) :
    (db_gc send recv = Except.ok () ↔
        send = Except.ok () ∧ recv = Except.ok (Except.ok ())) ∧
      (∀ e : γ, send = Except.ok () → recv = Except.ok (Except.error e) →
        db_gc send recv = Except.error (JsonRpcErr.gcFailed e)) := by
  constructor
  · cases send with
    | error e => simp [db_gc]
    | ok u =>
      cases u
      cases recv with
      | error e => simp [db_gc]
      | ok r =>
        cases r with
        | error e => simp [db_gc]
        | ok u =>
          cases u
          simp only [db_gc, and_self, iff_true]
          rfl
  · intro e hs hr
    subst hs
    subst hr
    rfl

/-- Witness for C8: a worker-reported failure surfaces as a GC error. -/
theorem db_gc_ok_iff_witness :
    db_gc (Except.ok ()) (Except.ok (Except.error ())) =
      Except.error (JsonRpcErr.gcFailed ()) :=
  (db_gc_ok_iff Unit (Except.ok ()) (Except.ok (Except.error ()))).2 () rfl rfl

/-- Claim C9: converse soundness of compaction: if `SmallCid::from(c)` is the
`V1DagCborBlake2b` variant holding digest d, then c has version V1, codec
DAG-CBOR, hash code Blake2b-256, and digest bytes exactly d. -/
theorem smallCid_canonical_sound (c : Cid) (d : List Nat)
    (h : (SmallCid.fromCid c).inner = SmallCidInner.v1DagCborBlake2b d) :
    c.version = Version.v1 ∧ c.codec = DAG_CBOR ∧
      c.hash.code = blake2b256Code ∧ c.hash.digest = d := by
  have h' : SmallCidInner.canonical c = SmallCidInner.v1DagCborBlake2b d := h
  rw [canonical_eq] at h'
  split_ifs at h' with hcond
  exact ⟨hcond.1, hcond.2.1, hcond.2.2.1, SmallCidInner.v1DagCborBlake2b.inj h'⟩

/-- Witness for C9 at the concrete canonical CID with the all-one digest. -/
theorem smallCid_canonical_sound_witness :
    (Cid.mk Version.v1 DAG_CBOR ⟨blake2b256Code, List.replicate 32 1⟩).version = Version.v1 ∧
      (Cid.mk Version.v1 DAG_CBOR ⟨blake2b256Code, List.replicate 32 1⟩).codec = DAG_CBOR ∧
      (Cid.mk Version.v1 DAG_CBOR ⟨blake2b256Code, List.replicate 32 1⟩).hash.code = blake2b256Code ∧
      (Cid.mk Version.v1 DAG_CBOR ⟨blake2b256Code, List.replicate 32 1⟩).hash.digest =
        List.replicate 32 1 :=
  smallCid_canonical_sound ⟨Version.v1, DAG_CBOR, ⟨blake2b256Code, List.replicate 32 1⟩⟩
    (List.replicate 32 1) (by decide)

/-- Claim C10: when the GC subsystem is unavailable — the rendezvous channel
is closed (send fails) or the worker drops the reply channel (receive fails) —
`db_gc` returns an error, never `Ok(())` and never a panic. -/
theorem db_gc_unavailable_errors (γ : Type) (e : SendErr) (e' : RecvErr)
    (recv : Except RecvErr (Except γ Unit)) :
    db_gc (Except.error e) recv = Except.error (JsonRpcErr.sendFailed e) ∧
      db_gc (Except.ok ()) (Except.error e' : Except RecvErr (Except γ Unit)) =
        Except.error (JsonRpcErr.recvFailed e') :=
  ⟨rfl, rfl⟩

end Forest
